import Mathlib

/-!
Verification development for the PRM (Partner Relationship Management)
repository.  The Python sources
(`crm/fcrm/doctype/crm_partner/crm_partner.py`, `prm/api/partner.py`,
`prm/permissions/partner_permissions.py`) are shallowly embedded below:
documents become Lean structures, the persistent store becomes explicit
lists threaded through the functions, monetary floats become `ℚ`, dates
become `Int` day ordinals (with the calendar-year map passed as an
explicit function), and `frappe.throw` becomes `Except` with an error
kind and message.  Each definition mirrors the control flow of the
corresponding Python function.
-/

namespace PRM

/-- Error taxonomy of the embedded code.  `frappe.throw` raises
`ValidationError` by default; `frappe.get_doc` on a missing record raises
`DoesNotExistError`. -/
inductive ErrKind where
  | validationError
  | doesNotExist
  | operationFailed
deriving DecidableEq, Repr

/-- An error carries its kind and its human-readable message. -/
structure Error where
  kind : ErrKind
  msg : String
deriving DecidableEq, Repr

/-! ### String helpers (character-level embeddings of the Python string
operations used by the source) -/

/-- Split a character list on spaces, dropping empty tokens: the embedding
of Python `str.split()` for space-separated text.  `acc` holds the
current token reversed. -/
def splitWs : List Char → List Char → List (List Char)
  | [], acc => if acc.isEmpty then [] else [acc.reverse]
  | c :: cs, acc =>
    if c = ' ' then
      if acc.isEmpty then splitWs cs [] else acc.reverse :: splitWs cs []
    else
      splitWs cs (c :: acc)

/-- Whitespace tokens of a string, as in Python `s.split()`. -/
def tokens (s : String) : List String :=
  (splitWs s.data []).map String.mk

/-- Uppercase every character: Python `str.upper()` (ASCII). -/
def upperStr (s : String) : String :=
  String.mk (s.data.map Char.toUpper)

/-- First `n` characters of a string: Python `s[:n]`. -/
def strTake (s : String) (n : Nat) : String :=
  String.mk (s.data.take n)

/-- Zero-padded decimal of width at least 3: Python `f"{n:03d}"` for
non-negative `n`. -/
def pad3 (n : Nat) : String :=
  let s := Nat.repr n
  String.mk (List.replicate (3 - s.length) '0') ++ s

/-- Does `needle` occur in `hay` as a contiguous substring?  Embedding of
SQL `LIKE '%needle%'` / Python `needle in hay`. -/
def strContainsSub (hay needle : String) : Bool :=
  (List.range (hay.data.length + 1)).any
    (fun i => needle.data.isPrefixOf (hay.data.drop i))

/-! ### Data model -/

/-- A `CRM Partner` document.  `name` is the primary-key document name.
Optional numeric fields model Python `None`; empty string models an
unset text field (both are falsy in the source's truthiness checks). -/
structure Partner where
  name : String
  partner_name : String
  partner_type : String
  partner_tier : String
  status : String
  email : String
  partner_code : String
  territory : String
  primary_contact : String
  assigned_partner_manager : Option String
  commission_rate : Option ℚ
  discount_level : Option ℚ
  agreement_start_date : Option Int
  agreement_end_date : Option Int
  training_completed : Bool
  certification_obtained : Bool
  portal_access_enabled : Bool
  onboarding_status : String
  onboarding_completion_date : Option Int
  total_deals_closed : Nat
  total_revenue_generated : ℚ
  average_deal_size : ℚ
  last_deal_date : Option Int
  ytd_revenue : ℚ
  lead_conversion_rate : ℚ
  partner_score : Int
  modified : Int
deriving DecidableEq, Repr

/-- A `CRM Deal` row as fetched by the Metrics Engine. -/
structure Deal where
  partner : String
  status : String
  deal_value : ℚ
  closed_date : Int
deriving DecidableEq, Repr

/-- A `CRM Lead` document (fields used by metrics and assignment). -/
structure Lead where
  name : String
  lead_name : String
  partner : Option String
  lead_owner : Option String
  status : String
deriving DecidableEq, Repr

/-- A `CRM Activity` audit record created by lead assignment. -/
structure Activity where
  activity_type : String
  subject : String
  description : String
  reference_name : String
  assigned_to : Option String
  status : String
deriving DecidableEq, Repr

/-- The persistent store visible to the embedded operations. -/
structure Db where
  partners : List Partner
  leads : List Lead
  deals : List Deal
  activities : List Activity
deriving DecidableEq, Repr

/-! ### Lifecycle Validator (`crm_partner.py`, `validate` pipeline) -/

/-- Embedding of `CRMPartner.validate_partner_code`: if a code is set,
fail when another stored partner (different document name) holds the
same code. -/
def validate_partner_code (store : List Partner) (p : Partner) : Except Error Unit :=
  if p.partner_code ≠ "" then
    if store.any (fun q => q.partner_code == p.partner_code && q.name != p.name) then
      .error ⟨.validationError, "Partner Code " ++ p.partner_code ++ " already exists"⟩
    else
      .ok ()
  else
    .ok ()

/-- Embedding of `CRMPartner.validate_agreement_dates`: when both dates
are set, fail unless the start date is strictly before the end date
(`getdate(start) >= getdate(end)` throws). -/
def validate_agreement_dates (start_date end_date : Option Int) : Except Error Unit :=
  match start_date, end_date with
  | some sd, some ed =>
    if sd ≥ ed then
      .error ⟨.validationError, "Agreement End Date must be after Agreement Start Date"⟩
    else
      .ok ()
  | _, _ => .ok ()

/-- Truthiness of an optional rational field followed by an out-of-range
test, as in `if self.commission_rate and (self.commission_rate < 0 or
self.commission_rate > 100)`. -/
def range_violation : Option ℚ → Bool
  | some r => r != 0 && (decide (r < 0) || decide (r > 100))
  | none => false

/-- Embedding of `CRMPartner.validate_commission_and_discount`. -/
def validate_commission_and_discount (p : Partner) : Except Error Unit :=
  if range_violation p.commission_rate then
    .error ⟨.validationError, "Commission Rate must be between 0 and 100"⟩
  else if range_violation p.discount_level then
    .error ⟨.validationError, "Discount Level must be between 0 and 100"⟩
  else
    .ok ()

/-- The code base derived from the partner name in
`set_partner_code_if_empty`:
`"".join([c.upper() for c in self.partner_name.split() if c])[:6]` —
the whole uppercased name tokens are concatenated and the result is
truncated to 6 characters. -/
def code_base (name : String) : String :=
  strTake (String.join ((tokens name).map upperStr)) 6

/-- The type code: `self.partner_type[:3].upper() if self.partner_type
else "GEN"`. -/
def type_code (t : String) : String :=
  if t ≠ "" then upperStr (strTake t 3) else "GEN"

/-- The `while True` probing loop of `set_partner_code_if_empty`,
embedded with explicit fuel: try `stem ++ pad3 counter`, increment the
counter while the candidate is an existing code.  The source loop is
unbounded; `store.length + 1` fuel covers every possible collision with
a finite store. -/
def find_unused_code (used : List String) (stem : String) : Nat → Nat → Option String
  | _, 0 => none
  | counter, fuel + 1 =>
    let proposed := stem ++ pad3 counter
    if used.contains proposed then
      find_unused_code used stem (counter + 1) fuel
    else
      some proposed

/-- Embedding of `CRMPartner.set_partner_code_if_empty`.  The
`operationFailed` branch is unreachable for the fuel supplied (a store
with `n` codes cannot collide with all of `n + 1` distinct candidates);
it stands in for the source's unbounded loop. -/
def set_partner_code_if_empty (store : List Partner) (p : Partner) : Except Error Partner :=
  if p.partner_code = "" then
    let stem := code_base p.partner_name ++ type_code p.partner_type
    match find_unused_code (store.map Partner.partner_code) stem 1 (store.length + 1) with
    | some c => .ok { p with partner_code := c }
    | none => .error ⟨.operationFailed, "partner code search exhausted"⟩
  else
    .ok p

/-- Embedding of `CRMPartner.validate_email_uniqueness`. -/
def validate_email_uniqueness (store : List Partner) (p : Partner) : Except Error Unit :=
  if p.email ≠ "" then
    if store.any (fun q => q.email == p.email && q.name != p.name) then
      .error ⟨.validationError, "Email " ++ p.email ++ " is already registered with another partner"⟩
    else
      .ok ()
  else
    .ok ()

/-- Embedding of `CRMPartner.validate`: the five checks in source
order, returning the document with its derived code filled in. -/
def partner_validate (store : List Partner) (p : Partner) : Except Error Partner := do
  validate_partner_code store p
  validate_agreement_dates p.agreement_start_date p.agreement_end_date
  validate_commission_and_discount p
  let p ← set_partner_code_if_empty store p
  validate_email_uniqueness store p
  return p

/-! ### Metrics Engine (`calculate_performance_metrics`,
`update_partner_score`) -/

/-- Python `max(deals, key=lambda x: x.closed_date)`: the first element
whose key is maximal (later elements replace the current best only when
strictly greater). -/
def max_by_closed_date : List Deal → Option Deal
  | [] => none
  | d :: ds =>
    some (ds.foldl (fun best x => if x.closed_date > best.closed_date then x else best) d)

/-- Embedding of `CRMPartner.calculate_performance_metrics`.  The store
queries become filters over the deal/lead lists; `yearOf` is the
calendar map `getdate(·).year` and `current_year` is
`datetime.now().year`.  When the partner has no Won deals the source
zeroes the four revenue fields but leaves `last_deal_date` untouched. -/
def calculate_performance_metrics (db_deals : List Deal) (db_leads : List Lead)
    (yearOf : Int → Int) (current_year : Int) (p : Partner) : Partner :=
  let deals := db_deals.filter (fun d => d.partner == p.name && d.status == "Won")
  let p :=
    if deals.isEmpty then
      { p with total_deals_closed := 0, total_revenue_generated := 0,
               average_deal_size := 0, ytd_revenue := 0 }
    else
      let total_deals_closed := deals.length
      let total_revenue_generated := (deals.map Deal.deal_value).sum
      let average_deal_size := total_revenue_generated / (total_deals_closed : ℚ)
      let last_deal_date :=
        match max_by_closed_date deals with
        | some d => some d.closed_date
        | none => p.last_deal_date
      let ytd_deals := deals.filter (fun d => yearOf d.closed_date == current_year)
      { p with total_deals_closed, total_revenue_generated, average_deal_size,
               last_deal_date, ytd_revenue := (ytd_deals.map Deal.deal_value).sum }
  let total_leads := (db_leads.filter (fun l => l.partner == some p.name)).length
  let converted_leads :=
    (db_leads.filter (fun l => l.partner == some p.name && l.status == "Converted")).length
  if total_leads > 0 then
    { p with lead_conversion_rate := ((converted_leads : ℚ) / (total_leads : ℚ)) * 100 }
  else
    { p with lead_conversion_rate := 0 }

/-- Python `int(q)`: truncation toward zero. -/
def pyInt (q : ℚ) : Int :=
  if 0 ≤ q then ⌊q⌋ else ⌈q⌉

/-- Embedding of `CRMPartner.update_partner_score`.  Each component is
added only when its driving field is truthy, exactly as in the source;
the final store is `min(100, int(score))` — there is no lower clamp. -/
def update_partner_score (p : Partner) (today : Int) : Int :=
  let score : ℚ := 0
  let score :=
    if p.total_revenue_generated ≠ 0 then
      score + min 40 (p.total_revenue_generated / 1000000 * 40)
    else score
  let score :=
    if p.lead_conversion_rate ≠ 0 then
      score + min 30 (p.lead_conversion_rate / 100 * 30)
    else score
  let training_score : ℚ :=
    (if p.training_completed then 10 else 0) + (if p.certification_obtained then 10 else 0)
  let score := score + training_score
  let compliance_score : ℚ :=
    (if p.status = "Active" then 5 else 0) +
    (match p.agreement_end_date with
     | some d => if d > today then 5 else 0
     | none => 0)
  let score := score + compliance_score
  min 100 (pyInt score)

/-- Embedding of `CRMPartner.set_onboarding_status`: flip to
"Completed" and stamp today's date exactly when all three flags hold
and the status is not already "Completed". -/
def set_onboarding_status (p : Partner) (today : Int) : Partner :=
  if p.training_completed && p.certification_obtained && p.portal_access_enabled
      && p.onboarding_status != "Completed" then
    { p with onboarding_status := "Completed", onboarding_completion_date := some today }
  else
    p

/-- Embedding of `CRMPartner.before_save`: metrics, then score, then
onboarding status. -/
def doc_before_save (db : Db) (p : Partner) (yearOf : Int → Int)
    (current_year today : Int) : Partner :=
  let p := calculate_performance_metrics db.deals db.leads yearOf current_year p
  let p := { p with partner_score := update_partner_score p today }
  set_onboarding_status p today

/-- Embedding of `calculate_partner_commission` (module-level utility in
`crm_partner.py`): `if partner_doc.commission_rate` is a truthiness
check, so a missing or zero rate yields 0. -/
def calculate_partner_commission (rate : Option ℚ) (deal_value : ℚ) : ℚ :=
  match rate with
  | some r => if r ≠ 0 then deal_value * r / 100 else 0
  | none => 0

/-! ### Access Policy Resolver (`partner_permissions.py`) -/

/-- The SQL condition strings returned by
`get_partner_permission_query_conditions`, as a structured filter:
`""` (unrestricted), `"1=0"` (nothing), `` `tabCRM Partner`.name = x ``,
`` `tabCRM Partner`.status != x ``. -/
inductive RowFilter where
  | unrestricted
  | nothing
  | nameEq (v : String)
  | statusNe (v : String)
deriving DecidableEq, Repr

/-- Evaluate a row filter on a partner row, as the store layer would. -/
def filterAdmits : RowFilter → Partner → Bool
  | .unrestricted, _ => true
  | .nothing, _ => false
  | .nameEq v, p => p.name == v
  | .statusNe v, p => p.status != v

/-- Embedding of `get_partner_permission_query_conditions`.  `user` is
the session user (an email, or the literal account name
`"Administrator"`), `roles` is `frappe.get_roles(user)`, and the
`frappe.db.get_value("CRM Partner", {"email": user}, "name")` lookup
becomes a first-match scan of the store. -/
def get_partner_permission_query_conditions (store : List Partner)
    (user : String) (roles : List String) : RowFilter :=
  if "System Manager" ∈ roles ∨ user = "Administrator" then
    .unrestricted
  else if "CRM Manager" ∈ roles ∨ "Partner Manager" ∈ roles ∨ "Partner Admin" ∈ roles then
    .unrestricted
  else if "Partner" ∈ roles then
    match store.find? (fun p => p.email == user) with
    | some p => .nameEq p.name
    | none => .nothing
  else if "CRM User" ∈ roles then
    .statusNe "Terminated"
  else
    .nothing

/-- Embedding of `has_partner_permission`. -/
def has_partner_permission (doc : Partner) (user : String) (roles : List String)
    (permission_type : String) : Bool :=
  if "System Manager" ∈ roles ∨ user = "Administrator" then
    true
  else if "CRM Manager" ∈ roles ∨ "Partner Manager" ∈ roles ∨ "Partner Admin" ∈ roles then
    true
  else if "Partner" ∈ roles then
    doc.email == user
  else if "CRM User" ∈ roles then
    if permission_type = "read" then
      doc.status != "Terminated"
    else if permission_type = "write" then
      doc.status == "Active"
    else
      false
  else
    false

/-! ### Query API Layer (`prm/api/partner.py`) -/

/-- A structural filter on the partner status field, standing for the
`filters["status"]` entry manipulated by `get_partner_list`. -/
inductive StatusFilter where
  | eqTo (v : String)
  | neTo (v : String)
deriving DecidableEq, Repr

/-- Evaluate a status filter on a status value. -/
def statusFilterAdmits : StatusFilter → String → Bool
  | .eqTo v, s => s == v
  | .neTo v, s => s != v

/-- The search conditions `get_partner_list` builds from `search_term`
(`["CRM Partner", "partner_name", "like", f"%{search_term}%"]`).  The
source constructs this list and then never passes it to the query — it
is dead code; it is embedded here to mirror that fact. -/
def search_conditions (search_term : Option String) : List (String × String × String) :=
  match search_term with
  | some t => if t ≠ "" then [("partner_name", "like", "%" ++ t ++ "%")] else []
  | none => []

/-- Stable insertion sort, descending by `partner_score` then by
`modified`: the embedding of `order_by="partner_score desc, modified
desc"`. -/
def orderKeyGe (p q : Partner) : Bool :=
  p.partner_score > q.partner_score ||
    (p.partner_score == q.partner_score && p.modified ≥ q.modified)

/-- Insert into a list already sorted by `orderKeyGe`. -/
def insertOrdered (p : Partner) : List Partner → List Partner
  | [] => [p]
  | q :: qs => if orderKeyGe p q then p :: q :: qs else q :: insertOrdered p qs

/-- Sort rows by `orderKeyGe`. -/
def sortRows : List Partner → List Partner
  | [] => []
  | p :: ps => insertOrdered p (sortRows ps)

/-- The page and metadata returned by `get_partner_list`. -/
structure ListResult where
  partners : List Partner
  total_count : Nat
  has_more : Bool
deriving DecidableEq, Repr

/-- Embedding of `get_partner_list`.  `status_filter` is the `"status"`
entry of the `filters` dict (`none` when absent) and `extra_filter`
stands for any other filter entries, applied identically to the page
query and the count query.  The `search_conditions` built from
`search_term` are, as in the source, never applied. -/
def get_partner_list (store : List Partner) (status_filter : Option StatusFilter)
    (extra_filter : Partner → Bool) (limit start : Nat)
    (search_term : Option String) : ListResult :=
  let _conditions := search_conditions search_term
  let status_filter := status_filter.getD (.neTo "Terminated")
  let matching := store.filter
    (fun p => statusFilterAdmits status_filter p.status && extra_filter p)
  let page := ((sortRows matching).drop start).take limit
  let total_count := matching.length
  { partners := page, total_count, has_more := start + limit < total_count }

/-- Embedding of the required-field loop at the top of `create_partner`:
`for field in ["partner_name", "partner_type", "partner_tier", "email"]:
if not partner_data.get(field): frappe.throw(...)`. -/
def required_fields_check (p : Partner) : Except Error Unit :=
  if p.partner_name = "" then
    .error ⟨.validationError, "Missing required field: partner_name"⟩
  else if p.partner_type = "" then
    .error ⟨.validationError, "Missing required field: partner_type"⟩
  else if p.partner_tier = "" then
    .error ⟨.validationError, "Missing required field: partner_tier"⟩
  else if p.email = "" then
    .error ⟨.validationError, "Missing required field: email"⟩
  else
    .ok ()

/-- The body of the `try` block of `create_partner`: the required
fields are checked, then `partner.insert()` runs the document's
`validate` and `before_save` hooks and persists the document. -/
def create_partner_inner (db : Db) (yearOf : Int → Int) (current_year today : Int)
    (data : Partner) : Except Error (Db × Partner) := do
  required_fields_check data
  let p ← partner_validate db.partners data
  let p := doc_before_save db p yearOf current_year today
  return ({ db with partners := db.partners ++ [p] }, p)

/-- Embedding of `create_partner`: on success the insert is committed;
`except Exception` rolls back every write and rethrows via
`frappe.throw` (hence as a `ValidationError`) with the message wrapped
in "Failed to create partner: ...". -/
def create_partner (db : Db) (yearOf : Int → Int) (current_year today : Int)
    (data : Partner) : Db × Except Error Partner :=
  match create_partner_inner db yearOf current_year today data with
  | .ok (db', p) => (db', .ok p)
  | .error e => (db, .error ⟨.validationError, "Failed to create partner: " ++ e.msg⟩)

/-- The body of the `try` block of `assign_lead_to_partner`: fetch the
lead, check write permission, fetch the partner, reject a non-Active
partner, then save the mutated lead and insert the activity record.
`lead_write_perm` stands for `lead.has_permission("write")`. -/
def assign_lead_inner (db : Db) (lead_name partner_name : String)
    (lead_write_perm : Lead → Bool) (session_user : String)
    (reason : Option String) : Except Error Db :=
  match db.leads.find? (fun l => l.name == lead_name) with
  | none => .error ⟨.doesNotExist, "CRM Lead " ++ lead_name ++ " not found"⟩
  | some lead =>
    if ¬ lead_write_perm lead then
      .error ⟨.validationError, "Not permitted to assign this lead"⟩
    else
      match db.partners.find? (fun p => p.name == partner_name) with
      | none => .error ⟨.doesNotExist, "CRM Partner " ++ partner_name ++ " not found"⟩
      | some partner =>
        if partner.status ≠ "Active" then
          .error ⟨.validationError, "Cannot assign lead to inactive partner"⟩
        else
          let lead' := { lead with
            partner := some partner_name,
            lead_owner := some (partner.assigned_partner_manager.getD session_user) }
          let activity : Activity := {
            activity_type := "Lead Assignment",
            subject := "Lead assigned to partner " ++ partner.partner_name,
            description := reason.getD
              ("Lead " ++ lead.lead_name ++ " assigned to partner " ++ partner.partner_name),
            reference_name := lead_name,
            assigned_to := partner.assigned_partner_manager,
            status := "Completed" }
          .ok { db with
            leads := db.leads.map (fun l => if l.name == lead_name then lead' else l),
            activities := db.activities ++ [activity] }

/-- Embedding of `assign_lead_to_partner`: on any failure inside the
`try` block the transaction is rolled back (the store reverts to its
prior state) and the error is rethrown via `frappe.throw` with a
wrapped message. -/
def assign_lead_to_partner (db : Db) (lead_name partner_name : String)
    (lead_write_perm : Lead → Bool) (session_user : String)
    (reason : Option String) : Db × Except Error Unit :=
  match assign_lead_inner db lead_name partner_name lead_write_perm session_user reason with
  | .ok db' => (db', .ok ())
  | .error e =>
    (db, .error ⟨.validationError, "Failed to assign lead to partner: " ++ e.msg⟩)

/-! ### Spec-side reference definitions (written from the words of the
specification, for comparison with the source embeddings above) -/

/-- Spec §4.1: `revenueScore = min(40, totalRevenue / 1,000,000 × 40)`. -/
def revenueScore (p : Partner) : ℚ :=
  min 40 (p.total_revenue_generated / 1000000 * 40)

/-- Spec §4.1: `conversionScore = min(30, conversionRate / 100 × 30)`. -/
def conversionScore (p : Partner) : ℚ :=
  min 30 (p.lead_conversion_rate / 100 * 30)

/-- Spec §4.1: 10 per completed training / obtained certification. -/
def trainingScoreSpec (p : Partner) : ℚ :=
  (if p.training_completed then 10 else 0) + (if p.certification_obtained then 10 else 0)

/-- Spec §4.1: 5 if status is Active, plus 5 if the agreement end date
is set and strictly after today. -/
def complianceScoreSpec (p : Partner) (today : Int) : ℚ :=
  (if p.status = "Active" then 5 else 0) +
  (match p.agreement_end_date with
   | some d => if d > today then 5 else 0
   | none => 0)

/-- Spec §4.1: the sum of the four component scores. -/
def scoreSumSpec (p : Partner) (today : Int) : ℚ :=
  revenueScore p + conversionScore p + trainingScoreSpec p + complianceScoreSpec p today

/-- A baseline partner record with every optional field unset and all
metrics zero, used to build concrete instances. -/
def samplePartner : Partner := {
  name := "PARTNER-0001", partner_name := "Acme Corp", partner_type := "Reseller",
  partner_tier := "Gold", status := "Pending Approval", email := "acme@example.com",
  partner_code := "", territory := "", primary_contact := "",
  assigned_partner_manager := none, commission_rate := none, discount_level := none,
  agreement_start_date := none, agreement_end_date := none,
  training_completed := false, certification_obtained := false,
  portal_access_enabled := false, onboarding_status := "Not Started",
  onboarding_completion_date := none, total_deals_closed := 0,
  total_revenue_generated := 0, average_deal_size := 0, last_deal_date := none,
  ytd_revenue := 0, lead_conversion_rate := 0, partner_score := 0, modified := 0 }

/-- A partner whose stored total revenue is negative (reachable: the sum
of Won-deal values with a negative deal value). -/
def scoreCexPartner : Partner :=
  { samplePartner with total_revenue_generated := -10000000 }

/-! ### Claim theorems -/

/-- C1 counterexample: with `totalRevenue = -10,000,000` (all other
fields at their defaults) `update_partner_score` stores `-400`, which
does not lie in `[0,100]` — the source has no lower clamp, so the claim
as stated is false. -/
theorem c1_counterexample :
    update_partner_score scoreCexPartner 0 = -400 ∧
    ¬ (0 ≤ update_partner_score scoreCexPartner 0 ∧
       update_partner_score scoreCexPartner 0 ≤ 100) := by
  have h : update_partner_score scoreCexPartner 0 = -400 := by
    simp +decide only [update_partner_score, scoreCexPartner, samplePartner, pyInt]
    norm_num
    rw [show ((-400 : ℚ)) = ((-400 : ℤ) : ℚ) by norm_num, Int.ceil_intCast]
    norm_num
  exact ⟨h, by rw [h]; omega⟩

/-- C1 (amended): whenever the stored `totalRevenue` and
`conversionRate` are non-negative (as the Metrics Engine always
produces them), `update_partner_score` stores a score in `[0,100]`
equal to the floor of the sum of the four component scores clamped to
`[0,100]`; the code applies no lower clamp, so a negative
`totalRevenue` escapes the range (see the counterexample). -/
theorem c1_amended (p : Partner) (today : Int)
    (hrev : 0 ≤ p.total_revenue_generated)
    (hcr : 0 ≤ p.lead_conversion_rate) :
    0 ≤ update_partner_score p today ∧
    update_partner_score p today ≤ 100 ∧
    update_partner_score p today = min 100 (max 0 ⌊scoreSumSpec p today⌋) := by
  have hrs0 : 0 ≤ revenueScore p :=
    le_min (by norm_num) (mul_nonneg (div_nonneg hrev (by norm_num)) (by norm_num))
  have hrs40 : revenueScore p ≤ 40 := min_le_left _ _
  have hcs0 : 0 ≤ conversionScore p :=
    le_min (by norm_num) (mul_nonneg (div_nonneg hcr (by norm_num)) (by norm_num))
  have hcs30 : conversionScore p ≤ 30 := min_le_left _ _
  have hts : 0 ≤ trainingScoreSpec p ∧ trainingScoreSpec p ≤ 20 := by
    unfold trainingScoreSpec
    constructor <;> split <;> split <;> norm_num
  have hcomp : 0 ≤ complianceScoreSpec p today ∧ complianceScoreSpec p today ≤ 10 := by
    unfold complianceScoreSpec
    constructor <;> split <;> split <;> try split
    all_goals norm_num
  have hsum0 : 0 ≤ scoreSumSpec p today := by
    unfold scoreSumSpec
    have := hts.1; have := hcomp.1
    linarith
  have hsum100 : scoreSumSpec p today ≤ 100 := by
    unfold scoreSumSpec
    have := hts.2; have := hcomp.2
    linarith
  have hcode : update_partner_score p today = min 100 ⌊scoreSumSpec p today⌋ := by
    have hsc : (if p.total_revenue_generated ≠ 0 then
          (0 : ℚ) + min 40 (p.total_revenue_generated / 1000000 * 40) else 0) =
        revenueScore p := by
      unfold revenueScore
      split
      · ring
      · rename_i h
        rw [not_ne_iff] at h
        rw [h]
        norm_num
    have hsc2 : ∀ s : ℚ, (if p.lead_conversion_rate ≠ 0 then
          s + min 30 (p.lead_conversion_rate / 100 * 30) else s) =
        s + conversionScore p := by
      intro s
      unfold conversionScore
      split
      · rfl
      · rename_i h
        rw [not_ne_iff] at h
        rw [h]
        norm_num
    simp only [update_partner_score]
    rw [hsc, hsc2]
    show min 100 (pyInt (scoreSumSpec p today)) = min 100 ⌊scoreSumSpec p today⌋
    simp only [pyInt]
    rw [if_pos hsum0]
  have hfl0 : 0 ≤ ⌊scoreSumSpec p today⌋ := Int.le_floor.mpr (by exact_mod_cast hsum0)
  have hfl100 : ⌊scoreSumSpec p today⌋ ≤ 100 := by
    have := Int.floor_le_floor (α := ℚ) hsum100
    rwa [show ⌊(100:ℚ)⌋ = 100 by norm_num [Int.floor_eq_iff]] at this
  refine ⟨?_, ?_, ?_⟩
  · rw [hcode]; exact le_min (by norm_num) hfl0
  · rw [hcode]; exact min_le_left _ _
  · rw [hcode, max_eq_right hfl0]

/-- A concrete partner with revenue 500,000 and conversion rate 75. -/
def scoreSamplePartner : Partner :=
  { samplePartner with
    total_revenue_generated := 500000
    lead_conversion_rate := 75 }

/-- C1 amended witness: the amended theorem instantiated at
`scoreSamplePartner`. -/
theorem c1_amended_witness :
    0 ≤ scoreSamplePartner.total_revenue_generated ∧
    0 ≤ scoreSamplePartner.lead_conversion_rate ∧
    (0 ≤ update_partner_score scoreSamplePartner 0 ∧
     update_partner_score scoreSamplePartner 0 ≤ 100 ∧
     update_partner_score scoreSamplePartner 0 =
       min 100 (max 0 ⌊scoreSumSpec scoreSamplePartner 0⌋)) :=
  ⟨by norm_num [scoreSamplePartner, samplePartner],
   by norm_num [scoreSamplePartner, samplePartner],
   c1_amended scoreSamplePartner 0 (by norm_num [scoreSamplePartner, samplePartner])
     (by norm_num [scoreSamplePartner, samplePartner])⟩

/-- C7: with both agreement dates set, validation succeeds exactly when
the end date is strictly after the start date, and otherwise (end
before or equal to start) fails with the ValidationError message. -/
theorem c7_agreement_dates_strict (sd ed : Int) :
    (validate_agreement_dates (some sd) (some ed) = .ok () ↔ sd < ed)
    ∧ (ed ≤ sd →
        validate_agreement_dates (some sd) (some ed) =
          .error ⟨.validationError, "Agreement End Date must be after Agreement Start Date"⟩) := by
  by_cases h : sd ≥ ed
  · simp only [validate_agreement_dates, if_pos h]
    refine ⟨⟨fun hc => ?_, fun hlt => absurd hlt (by omega)⟩, fun _ => by trivial⟩
    cases hc
  · simp only [validate_agreement_dates, if_neg h]
    exact ⟨⟨fun _ => by omega, fun _ => by trivial⟩, fun hle => absurd hle (by omega)⟩

/-- C7 witness: equal dates fail, and a later end date passes, at
concrete inputs. -/
theorem c7_agreement_dates_strict_witness :
    ((validate_agreement_dates (some 10) (some 10) = .ok () ↔ (10:Int) < 10)
      ∧ ((10:Int) ≤ 10 →
          validate_agreement_dates (some 10) (some 10) =
            .error ⟨.validationError, "Agreement End Date must be after Agreement Start Date"⟩))
    ∧ (validate_agreement_dates (some 10) (some 11) = .ok () ↔ (10:Int) < 11) :=
  ⟨c7_agreement_dates_strict 10 10, (c7_agreement_dates_strict 10 11).1⟩

/-- C8: on a save, `set_onboarding_status` moves the status to
"Completed" exactly when the three flags hold and the status is not
already "Completed"; on that transition it stamps the completion date
with the save date; when the status is already "Completed" (or the
flags are not all set) the document is left untouched, so "Completed"
is terminal for this logic. -/
theorem c8_onboarding_transition (p : Partner) (d : Int) :
    (p.onboarding_status = "Completed" → set_onboarding_status p d = p)
    ∧ (p.onboarding_status ≠ "Completed" →
        ((set_onboarding_status p d).onboarding_status = "Completed" ↔
          (p.training_completed = true ∧ p.certification_obtained = true ∧
           p.portal_access_enabled = true)))
    ∧ ((p.onboarding_status ≠ "Completed" ∧ p.training_completed = true ∧
        p.certification_obtained = true ∧ p.portal_access_enabled = true) →
        (set_onboarding_status p d).onboarding_status = "Completed" ∧
        (set_onboarding_status p d).onboarding_completion_date = some d)
    ∧ (¬ (p.training_completed = true ∧ p.certification_obtained = true ∧
          p.portal_access_enabled = true) →
        set_onboarding_status p d = p) := by
  unfold set_onboarding_status
  by_cases h1 : p.training_completed = true <;>
    by_cases h2 : p.certification_obtained = true <;>
      by_cases h3 : p.portal_access_enabled = true <;>
        by_cases h4 : p.onboarding_status = "Completed" <;>
          simp_all

/-- A concrete partner mid-onboarding with all three flags set. -/
def onboardingSamplePartner : Partner :=
  { samplePartner with
    training_completed := true
    certification_obtained := true
    portal_access_enabled := true
    onboarding_status := "In Progress" }

/-- C8 witness: the transition fires on a concrete partner with all
three flags set and status "In Progress". -/
theorem c8_onboarding_transition_witness :
    (onboardingSamplePartner.onboarding_status ≠ "Completed" ∧
     onboardingSamplePartner.training_completed = true ∧
     onboardingSamplePartner.certification_obtained = true ∧
     onboardingSamplePartner.portal_access_enabled = true) ∧
    ((set_onboarding_status onboardingSamplePartner 7).onboarding_status = "Completed" ∧
     (set_onboarding_status onboardingSamplePartner 7).onboarding_completion_date = some 7) :=
  ⟨by simp [onboardingSamplePartner, samplePartner],
   (c8_onboarding_transition onboardingSamplePartner 7).2.2.1
     (by simp [onboardingSamplePartner, samplePartner])⟩

/-- C9: for a set commission rate `r ∈ [0,100]` and non-negative deal
value the commission is `v × r / 100`; with no rate set it is 0 for
every deal value. -/
theorem c9_commission_formula (r v : ℚ) :
    (0 ≤ r → r ≤ 100 → 0 ≤ v → calculate_partner_commission (some r) v = v * r / 100)
    ∧ (∀ w : ℚ, calculate_partner_commission none w = 0) := by
  refine ⟨fun _ _ _ => ?_, fun w => rfl⟩
  by_cases h : r = 0
  · simp [calculate_partner_commission, h]
  · simp [calculate_partner_commission, h]

/-- C9 witness: rate 15 on deal value 10,000 gives 1,500; a missing
rate gives 0. -/
theorem c9_commission_formula_witness :
    calculate_partner_commission (some 15) 10000 = 10000 * 15 / 100 ∧
    calculate_partner_commission none 10000 = 0 :=
  ⟨(c9_commission_formula 15 10000).1 (by norm_num) (by norm_num) (by norm_num),
   (c9_commission_formula 15 10000).2 10000⟩

/-- The code base as the claim words it: the uppercased first letters
of each name token, truncated to 6 characters. -/
def claimedCodeBase (name : String) : String :=
  strTake (upperStr (String.join ((tokens name).map (fun t => strTake t 1)))) 6

/-- C2 counterexample: for a partner named "Acme Corp" of type
"Reseller" saved against an empty store, the source derives the code
"ACMECORES001" (whole uppercased name tokens, truncated to 6), while
the claim's "first letters of each name token" formula would give
"ACRES001" — the claim as stated is false. -/
theorem c2_counterexample :
    (set_partner_code_if_empty [] samplePartner).toOption.map Partner.partner_code =
      some "ACMECORES001" ∧
    claimedCodeBase samplePartner.partner_name ++ type_code samplePartner.partner_type
      ++ pad3 1 = "ACRES001" ∧
    ("ACMECORES001" : String) ≠ "ACRES001" := by
  refine ⟨by decide, by decide, by decide⟩

/-- Partial-correctness of the probing loop: a returned code is
`stem ++ pad3 k` for the first counter `k ≥ c₀` whose candidate is not
an existing code. -/
theorem find_unused_code_spec (used : List String) (stem : String) :
    ∀ fuel c₀ code, find_unused_code used stem c₀ fuel = some code →
      ∃ k, c₀ ≤ k ∧ code = stem ++ pad3 k ∧ used.contains code = false ∧
        ∀ j, c₀ ≤ j → j < k → used.contains (stem ++ pad3 j) = true := by
  intro fuel
  induction fuel with
  | zero => intro c₀ code h; cases h
  | succ fuel ih =>
    intro c₀ code h
    unfold find_unused_code at h
    by_cases hc : used.contains (stem ++ pad3 c₀)
    · rw [if_pos hc] at h
      obtain ⟨k, hk1, hk2, hk3, hk4⟩ := ih (c₀ + 1) code h
      refine ⟨k, by omega, hk2, hk3, fun j hj1 hj2 => ?_⟩
      rcases Nat.eq_or_lt_of_le hj1 with hj | hj
      · rwa [← hj]
      · exact hk4 j (by omega) hj2
    · rw [if_neg hc] at h
      cases h
      exact ⟨c₀, le_refl _, rfl, by simpa using hc, fun j hj1 hj2 => by omega⟩

/-- C2 (amended): for a partner saved without a code, the derived code
is the uppercased name tokens concatenated and truncated to 6
characters (not their first letters), followed by the uppercased first
3 characters of the type (default "GEN"), followed by the zero-padded
counter, starting at 1 and incremented past every candidate already
present in the store; only the code field of the document changes. -/
theorem c2_amended (store : List Partner) (p q : Partner)
    (hempty : p.partner_code = "")
    (hsucc : set_partner_code_if_empty store p = .ok q) :
    ∃ k : Nat, 1 ≤ k ∧
      q.partner_code =
        code_base p.partner_name ++ type_code p.partner_type ++ pad3 k ∧
      (store.map Partner.partner_code).contains q.partner_code = false ∧
      (∀ j, 1 ≤ j → j < k →
        (store.map Partner.partner_code).contains
          (code_base p.partner_name ++ type_code p.partner_type ++ pad3 j) = true) ∧
      q = { p with partner_code := q.partner_code } := by
  unfold set_partner_code_if_empty at hsucc
  rw [if_pos hempty] at hsucc
  simp only [] at hsucc
  rcases hfind : find_unused_code (store.map Partner.partner_code)
      (code_base p.partner_name ++ type_code p.partner_type) 1 (store.length + 1)
    with _ | c
  · rw [hfind] at hsucc; cases hsucc
  · rw [hfind] at hsucc
    obtain ⟨k, hk1, hk2, hk3, hk4⟩ :=
      find_unused_code_spec (store.map Partner.partner_code)
        (code_base p.partner_name ++ type_code p.partner_type)
        (store.length + 1) 1 c hfind
    cases hsucc
    refine ⟨k, hk1, ?_, ?_, ?_, rfl⟩
    · simpa [String.append_assoc] using hk2
    · simpa using hk3
    · intro j hj1 hj2
      simpa [String.append_assoc] using hk4 j hj1 hj2

/-- A store already holding the first candidate code for "Acme Corp"
Reseller. -/
def codeCollisionStore : List Partner :=
  [{ samplePartner with
     name := "PARTNER-0002"
     email := "other@example.com"
     partner_code := "ACMECORES001" }]

/-- C2 amended witness: against a store already containing
"ACMECORES001", the derivation probes to counter 2. -/
theorem c2_amended_witness :
    samplePartner.partner_code = "" ∧
    set_partner_code_if_empty codeCollisionStore samplePartner =
      .ok { samplePartner with partner_code := "ACMECORES002" } ∧
    (∃ k : Nat, 1 ≤ k ∧
      ({ samplePartner with partner_code := "ACMECORES002" } : Partner).partner_code =
        code_base samplePartner.partner_name ++ type_code samplePartner.partner_type
          ++ pad3 k ∧
      (codeCollisionStore.map Partner.partner_code).contains
        ({ samplePartner with partner_code := "ACMECORES002" } : Partner).partner_code
          = false ∧
      (∀ j, 1 ≤ j → j < k →
        (codeCollisionStore.map Partner.partner_code).contains
          (code_base samplePartner.partner_name ++ type_code samplePartner.partner_type
            ++ pad3 j) = true) ∧
      ({ samplePartner with partner_code := "ACMECORES002" } : Partner) =
        { samplePartner with partner_code :=
            ({ samplePartner with partner_code := "ACMECORES002" } : Partner).partner_code }) :=
  ⟨by decide, by rfl,
   c2_amended codeCollisionStore samplePartner _ (by decide) (by rfl)⟩

/-- A concrete active partner whose name does not contain "zzz". -/
def searchSamplePartner : Partner :=
  { samplePartner with
    name := "PARTNER-A"
    partner_name := "Alpha Search Partner"
    partner_code := "ASP001"
    status := "Active" }

/-- C3: `get_partner_list` builds its search conditions but never
passes them to the query, so a search term that matches no partner
name still returns (and counts) every partner admitted by the other
filters: the page for `search_term = "zzz"` contains a partner whose
name does not contain "zzz". -/
theorem c3_search_ignored :
    (get_partner_list [searchSamplePartner] none (fun _ => true) 20 0
        (some "zzz")).partners = [searchSamplePartner] ∧
    (get_partner_list [searchSamplePartner] none (fun _ => true) 20 0
        (some "zzz")).total_count = 1 ∧
    strContainsSub searchSamplePartner.partner_name "zzz" = false := by
  refine ⟨by decide, by decide, by decide⟩

/-- C5: for an acting identity with the "Partner" role and none of the
elevated roles (and not the Administrator account itself, which the
source recognizes by session-user name), the row filter admits a stored
row exactly when that row's email is the identity's email, admits
nothing when no stored partner has that email, and
`has_partner_permission` permits exactly the document whose email
equals the identity's email.  The store invariants — document names
unique, partner emails unique — are hypotheses. -/
theorem c5_partner_role_scoping (store : List Partner) (user : String)
    (roles : List String) (permission_type : String)
    (hp : "Partner" ∈ roles)
    (h1 : "System Manager" ∉ roles) (h2 : user ≠ "Administrator")
    (h3 : "CRM Manager" ∉ roles) (h4 : "Partner Manager" ∉ roles)
    (h5 : "Partner Admin" ∉ roles)
    (hnames : (store.map Partner.name).Nodup)
    (hemails : (store.map Partner.email).Nodup) :
    (∀ q ∈ store,
      (filterAdmits (get_partner_permission_query_conditions store user roles) q = true ↔
        q.email = user))
    ∧ ((∀ q ∈ store, q.email ≠ user) →
        ∀ q, filterAdmits (get_partner_permission_query_conditions store user roles) q = false)
    ∧ (∀ doc : Partner,
        (has_partner_permission doc user roles permission_type = true ↔ doc.email = user)) := by
  have hA : ¬("System Manager" ∈ roles ∨ user = "Administrator") := by
    rintro (h | h)
    · exact h1 h
    · exact h2 h
  have hB : ¬("CRM Manager" ∈ roles ∨ "Partner Manager" ∈ roles ∨ "Partner Admin" ∈ roles) := by
    rintro (h | h | h)
    · exact h3 h
    · exact h4 h
    · exact h5 h
  have hcond : get_partner_permission_query_conditions store user roles =
      (match store.find? (fun p => p.email == user) with
       | some p => RowFilter.nameEq p.name
       | none => RowFilter.nothing) := by
    unfold get_partner_permission_query_conditions
    rw [if_neg hA, if_neg hB, if_pos hp]
  have hperm : ∀ doc : Partner,
      (has_partner_permission doc user roles permission_type = true ↔ doc.email = user) := by
    intro doc
    unfold has_partner_permission
    rw [if_neg hA, if_neg hB, if_pos hp]
    exact beq_iff_eq
  rcases hfind : store.find? (fun p => p.email == user) with _ | p <;>
    rw [hfind] at hcond
  · have hnone : ∀ q ∈ store, q.email ≠ user := by
      intro q hq
      have := List.find?_eq_none.mp hfind q hq
      simpa using this
    refine ⟨fun q hq => ?_, fun _ q => ?_, hperm⟩
    · rw [hcond]
      simp only [filterAdmits]
      exact ⟨fun h => (Bool.false_ne_true h).elim, fun h => absurd h (hnone q hq)⟩
    · rw [hcond]
      rfl
  · have hpe : p.email = user := by
      have := List.find?_some hfind
      simpa using this
    have hpmem : p ∈ store := List.mem_of_find?_eq_some hfind
    refine ⟨fun q hq => ?_, fun habs q => ?_, hperm⟩
    · rw [hcond]
      simp only [filterAdmits]
      constructor
      · intro h
        have hqp : q.name = p.name := by simpa using h
        have : q = p := List.inj_on_of_nodup_map hnames hq hpmem hqp
        rw [this, hpe]
      · intro h
        have : q = p := List.inj_on_of_nodup_map hemails hq hpmem (h.trans hpe.symm)
        simp [this]
    · exact absurd hpe (habs p hpmem)

/-- A second stored partner, for the C5 witness store. -/
def otherSamplePartner : Partner :=
  { samplePartner with
    name := "PARTNER-0002"
    partner_name := "Beta LLC"
    email := "beta@example.com"
    partner_code := "BETA001" }

/-- C5 witness: the theorem instantiated at a two-partner store and the
identity `acme@example.com` with role set `["Partner"]`. -/
theorem c5_partner_role_scoping_witness :
    ("Partner" ∈ (["Partner"] : List String) ∧
     "System Manager" ∉ (["Partner"] : List String) ∧
     ("acme@example.com" : String) ≠ "Administrator" ∧
     (([samplePartner, otherSamplePartner].map Partner.name).Nodup ∧
      ([samplePartner, otherSamplePartner].map Partner.email).Nodup)) ∧
    ((∀ q ∈ [samplePartner, otherSamplePartner],
      (filterAdmits (get_partner_permission_query_conditions
          [samplePartner, otherSamplePartner] "acme@example.com" ["Partner"]) q = true ↔
        q.email = "acme@example.com"))
    ∧ ((∀ q ∈ [samplePartner, otherSamplePartner], q.email ≠ "acme@example.com") →
        ∀ q, filterAdmits (get_partner_permission_query_conditions
          [samplePartner, otherSamplePartner] "acme@example.com" ["Partner"]) q = false)
    ∧ (∀ doc : Partner,
        (has_partner_permission doc "acme@example.com" ["Partner"] "read" = true ↔
          doc.email = "acme@example.com"))) :=
  ⟨⟨by decide, by decide, by decide, by decide, by decide⟩,
   c5_partner_role_scoping [samplePartner, otherSamplePartner] "acme@example.com"
     ["Partner"] "read" (by decide) (by decide) (by decide) (by decide) (by decide)
     (by decide) (by decide) (by decide)⟩

/-- C6: assigning a lead to a stored partner whose status is not
"Active" fails — the result is a ValidationError — and the rolled-back
store is exactly the prior store, so the lead's partner reference and
owner are unchanged and no persisted write survives. -/
theorem c6_inactive_assignment_rejected (db : Db) (lead_name partner_name : String)
    (perm : Lead → Bool) (session_user : String) (reason : Option String)
    (lead : Lead) (partner : Partner)
    (hlead : db.leads.find? (fun l => l.name == lead_name) = some lead)
    (hpartner : db.partners.find? (fun p => p.name == partner_name) = some partner)
    (hstatus : partner.status ≠ "Active") :
    (assign_lead_to_partner db lead_name partner_name perm session_user reason).1 = db ∧
    ∃ m, (assign_lead_to_partner db lead_name partner_name perm session_user reason).2 =
      .error ⟨.validationError, m⟩ := by
  have hinner : ∃ e : Error,
      assign_lead_inner db lead_name partner_name perm session_user reason = .error e ∧
      e.kind = .validationError := by
    by_cases hpm : perm lead
    · refine ⟨⟨.validationError, "Cannot assign lead to inactive partner"⟩, ?_, rfl⟩
      simp [assign_lead_inner, hlead, hpartner, hpm, hstatus]
    · refine ⟨⟨.validationError, "Not permitted to assign this lead"⟩, ?_, rfl⟩
      simp [assign_lead_inner, hlead, hpm]
  obtain ⟨e, he, _⟩ := hinner
  unfold assign_lead_to_partner
  rw [he]
  exact ⟨rfl, "Failed to assign lead to partner: " ++ e.msg, rfl⟩

/-- A concrete Inactive partner. -/
def inactiveSamplePartner : Partner :=
  { samplePartner with
    name := "PARTNER-0003"
    email := "inactive@example.com"
    partner_code := "INA001"
    status := "Inactive" }

/-- A concrete unassigned lead. -/
def sampleLead : Lead :=
  { name := "LEAD-0001", lead_name := "Test Lead", partner := none,
    lead_owner := none, status := "Open" }

/-- A concrete store holding the Inactive partner and the lead. -/
def sampleDb : Db :=
  { partners := [inactiveSamplePartner], leads := [sampleLead],
    deals := [], activities := [] }

/-- C6 witness: assigning the concrete lead to the concrete Inactive
partner leaves the store untouched and returns a ValidationError. -/
theorem c6_inactive_assignment_rejected_witness :
    (sampleDb.leads.find? (fun l => l.name == "LEAD-0001") = some sampleLead ∧
     sampleDb.partners.find? (fun p => p.name == "PARTNER-0003") = some inactiveSamplePartner ∧
     inactiveSamplePartner.status ≠ "Active") ∧
    ((assign_lead_to_partner sampleDb "LEAD-0001" "PARTNER-0003" (fun _ => true)
        "manager@example.com" none).1 = sampleDb ∧
     ∃ m, (assign_lead_to_partner sampleDb "LEAD-0001" "PARTNER-0003" (fun _ => true)
        "manager@example.com" none).2 = .error ⟨.validationError, m⟩) :=
  ⟨⟨by decide, by decide, by decide⟩,
   c6_inactive_assignment_rejected sampleDb "LEAD-0001" "PARTNER-0003" (fun _ => true)
     "manager@example.com" none sampleLead inactiveSamplePartner
     (by decide) (by decide) (by decide)⟩

/-- C10: whenever `create_partner` fails — the missing-required-field
check or any Lifecycle Validator error — the transaction is rolled
back (the returned store is the prior store) and the error reaching
the caller is a ValidationError whose message is the original message
wrapped in "Failed to create partner: ...". -/
theorem c10_create_partner_wraps_failures (db : Db) (yearOf : Int → Int)
    (current_year today : Int) (data : Partner) (db' : Db) (e : Error)
    (hfail : create_partner db yearOf current_year today data = (db', .error e)) :
    db' = db ∧ e.kind = .validationError ∧
    ∃ inner_err : Error,
      create_partner_inner db yearOf current_year today data = .error inner_err ∧
      e.msg = "Failed to create partner: " ++ inner_err.msg := by
  unfold create_partner at hfail
  rcases hin : create_partner_inner db yearOf current_year today data with e' | pair
  · rw [hin] at hfail
    have h1 : db = db' := congrArg Prod.fst hfail
    have h2 : (Except.error ⟨.validationError,
        "Failed to create partner: " ++ e'.msg⟩ : Except Error Partner) = .error e :=
      congrArg Prod.snd hfail
    injection h2 with h3
    subst h3
    exact ⟨h1.symm, rfl, e', rfl, rfl⟩
  · rw [hin] at hfail
    rcases pair with ⟨db'', p⟩
    have h2 := congrArg Prod.snd hfail
    exact Except.noConfusion h2

/-- A creation payload whose email is missing. -/
def missingEmailData : Partner := { samplePartner with email := "" }

/-- C10 witness: creating a partner with a missing email fails; the
store is rolled back and the caller sees only the wrapped
ValidationError message. -/
theorem c10_create_partner_wraps_failures_witness :
    create_partner sampleDb (fun _ => 2024) 2024 0 missingEmailData =
      (sampleDb, .error ⟨.validationError,
        "Failed to create partner: Missing required field: email"⟩) ∧
    (sampleDb = sampleDb ∧
     (ErrKind.validationError = ErrKind.validationError) ∧
     ∃ inner_err : Error,
       create_partner_inner sampleDb (fun _ => 2024) 2024 0 missingEmailData =
         .error inner_err ∧
       ("Failed to create partner: Missing required field: email" : String) =
         "Failed to create partner: " ++ inner_err.msg) :=
  ⟨by rfl,
   c10_create_partner_wraps_failures sampleDb (fun _ => 2024) 2024 0 missingEmailData
     sampleDb ⟨.validationError, "Failed to create partner: Missing required field: email"⟩
     (by rfl)⟩

/-- Spec §4.1: all Deal records with `partner = partnerId` and
`status = Won`. -/
def wonDealsOf (db_deals : List Deal) (pname : String) : List Deal :=
  db_deals.filter (fun d => d.partner == pname && d.status == "Won")

/-- Spec §4.1: `Σ dealValue`. -/
def sumDealValues (l : List Deal) : ℚ :=
  (l.map Deal.deal_value).sum

/-- Spec §4.1: `max(closedDate)`. -/
def maxClosedDate (l : List Deal) : Option Int :=
  (l.map Deal.closed_date).max?

/-- Spec §4.1: total Lead count for the partner. -/
def totalLeadCount (db_leads : List Lead) (pname : String) : Nat :=
  (db_leads.filter (fun l => l.partner == some pname)).length

/-- Spec §4.1: converted Lead count for the partner. -/
def convertedLeadCount (db_leads : List Lead) (pname : String) : Nat :=
  (db_leads.filter (fun l => l.partner == some pname && l.status == "Converted")).length

/-- The closed date of Python's `max(·, key=closed_date)` is the
maximum of the closed dates. -/
theorem foldl_max_by_closed_date (ds : List Deal) : ∀ d : Deal,
    (ds.foldl (fun best x => if x.closed_date > best.closed_date then x else best)
        d).closed_date =
      ds.foldl (fun m x => max m x.closed_date) d.closed_date := by
  induction ds with
  | nil => intro d; rfl
  | cons x ds ih =>
    intro d
    simp only [List.foldl_cons]
    rw [ih]
    congr 1
    by_cases h : x.closed_date > d.closed_date
    · rw [if_pos h, max_eq_right (le_of_lt h)]
    · rw [if_neg h, max_eq_left (by omega)]

/-- On a non-empty deal list, the source's `last_deal_date` assignment
computes the maximum closed date. -/
theorem max_by_closed_date_spec (l : List Deal) (h : l ≠ []) (fallback : Option Int) :
    (match max_by_closed_date l with
     | some d => some d.closed_date
     | none => fallback) = maxClosedDate l := by
  rcases l with _ | ⟨d, ds⟩
  · exact absurd rfl h
  · simp only [max_by_closed_date, maxClosedDate, List.max?, List.map_cons]
    rw [List.foldl_map]
    exact congrArg some (foldl_max_by_closed_date ds d)

/-- C4: `calculate_performance_metrics` equals the reference
definition — with no Won deals the four revenue fields are zeroed;
with at least one Won deal the count, revenue sum, average, maximum
closed date and year-to-date sum are as specified; and the conversion
rate is `converted/total × 100` when the partner has leads and 0
otherwise. -/
theorem c4_metrics_reference (db_deals : List Deal) (db_leads : List Lead)
    (yearOf : Int → Int) (current_year : Int) (p : Partner) :
    (wonDealsOf db_deals p.name = [] →
      ((calculate_performance_metrics db_deals db_leads yearOf current_year p).total_deals_closed = 0 ∧
       (calculate_performance_metrics db_deals db_leads yearOf current_year p).total_revenue_generated = 0 ∧
       (calculate_performance_metrics db_deals db_leads yearOf current_year p).average_deal_size = 0 ∧
       (calculate_performance_metrics db_deals db_leads yearOf current_year p).ytd_revenue = 0))
    ∧ (wonDealsOf db_deals p.name ≠ [] →
      ((calculate_performance_metrics db_deals db_leads yearOf current_year p).total_deals_closed =
         (wonDealsOf db_deals p.name).length ∧
       (calculate_performance_metrics db_deals db_leads yearOf current_year p).total_revenue_generated =
         sumDealValues (wonDealsOf db_deals p.name) ∧
       (calculate_performance_metrics db_deals db_leads yearOf current_year p).average_deal_size =
         sumDealValues (wonDealsOf db_deals p.name) / ((wonDealsOf db_deals p.name).length : ℚ) ∧
       (calculate_performance_metrics db_deals db_leads yearOf current_year p).last_deal_date =
         maxClosedDate (wonDealsOf db_deals p.name) ∧
       (calculate_performance_metrics db_deals db_leads yearOf current_year p).ytd_revenue =
         sumDealValues ((wonDealsOf db_deals p.name).filter
           (fun d => yearOf d.closed_date == current_year))))
    ∧ ((calculate_performance_metrics db_deals db_leads yearOf current_year p).lead_conversion_rate =
        if 0 < totalLeadCount db_leads p.name then
          ((convertedLeadCount db_leads p.name : ℚ) / (totalLeadCount db_leads p.name : ℚ)) * 100
        else 0) := by
  refine ⟨fun hw => ?_, fun hw => ?_, ?_⟩
  · have hf : db_deals.filter (fun d => d.partner == p.name && d.status == "Won") = [] := hw
    unfold calculate_performance_metrics
    simp only [hf, List.isEmpty_nil, if_true]
    refine ⟨?_, ?_, ?_, ?_⟩ <;> split <;> rfl
  · have hf : db_deals.filter (fun d => d.partner == p.name && d.status == "Won") ≠ [] := hw
    have hb : (db_deals.filter (fun d => d.partner == p.name && d.status == "Won")).isEmpty
        = false := by
      simpa [List.isEmpty_iff] using hf
    unfold calculate_performance_metrics
    simp only [hb, Bool.false_eq_true, if_false]
    refine ⟨?_, ?_, ?_, ?_, ?_⟩ <;> split <;>
      first
        | rfl
        | (show (match max_by_closed_date (wonDealsOf db_deals p.name) with
              | some d => some d.closed_date
              | none => p.last_deal_date) = maxClosedDate (wonDealsOf db_deals p.name)
           exact max_by_closed_date_spec _ hw p.last_deal_date)
  · by_cases hw : db_deals.filter (fun d => d.partner == p.name && d.status == "Won") = []
    · unfold calculate_performance_metrics
      simp only [hw, List.isEmpty_nil, if_true, totalLeadCount, convertedLeadCount]
      split <;> rfl
    · have hb : (db_deals.filter (fun d => d.partner == p.name && d.status == "Won")).isEmpty
          = false := by
        simpa [List.isEmpty_iff] using hw
      unfold calculate_performance_metrics
      simp only [hb, Bool.false_eq_true, if_false, totalLeadCount, convertedLeadCount]
      split <;> rfl

/-- Three Won deals for the sample partner (values 10000, 20000,
30000), all closed in year 2024. -/
def sampleDeals : List Deal :=
  [{ partner := "PARTNER-0001", status := "Won", deal_value := 10000, closed_date := 100 },
   { partner := "PARTNER-0001", status := "Won", deal_value := 20000, closed_date := 150 },
   { partner := "PARTNER-0001", status := "Won", deal_value := 30000, closed_date := 120 }]

/-- Five leads for the sample partner, three of them Converted. -/
def sampleLeads : List Lead :=
  [{ name := "LEAD-1", lead_name := "L1", partner := some "PARTNER-0001",
     lead_owner := none, status := "Converted" },
   { name := "LEAD-2", lead_name := "L2", partner := some "PARTNER-0001",
     lead_owner := none, status := "Converted" },
   { name := "LEAD-3", lead_name := "L3", partner := some "PARTNER-0001",
     lead_owner := none, status := "Converted" },
   { name := "LEAD-4", lead_name := "L4", partner := some "PARTNER-0001",
     lead_owner := none, status := "Open" },
   { name := "LEAD-5", lead_name := "L5", partner := some "PARTNER-0001",
     lead_owner := none, status := "Open" }]

/-- C4 witness: the reference equality instantiated at the sample
partner with its three Won deals and five leads. -/
theorem c4_metrics_reference_witness :
    (wonDealsOf sampleDeals samplePartner.name = [] →
      ((calculate_performance_metrics sampleDeals sampleLeads (fun _ => 2024) 2024
          samplePartner).total_deals_closed = 0 ∧
       (calculate_performance_metrics sampleDeals sampleLeads (fun _ => 2024) 2024
          samplePartner).total_revenue_generated = 0 ∧
       (calculate_performance_metrics sampleDeals sampleLeads (fun _ => 2024) 2024
          samplePartner).average_deal_size = 0 ∧
       (calculate_performance_metrics sampleDeals sampleLeads (fun _ => 2024) 2024
          samplePartner).ytd_revenue = 0))
    ∧ (wonDealsOf sampleDeals samplePartner.name ≠ [] →
      ((calculate_performance_metrics sampleDeals sampleLeads (fun _ => 2024) 2024
          samplePartner).total_deals_closed = (wonDealsOf sampleDeals samplePartner.name).length ∧
       (calculate_performance_metrics sampleDeals sampleLeads (fun _ => 2024) 2024
          samplePartner).total_revenue_generated =
         sumDealValues (wonDealsOf sampleDeals samplePartner.name) ∧
       (calculate_performance_metrics sampleDeals sampleLeads (fun _ => 2024) 2024
          samplePartner).average_deal_size =
         sumDealValues (wonDealsOf sampleDeals samplePartner.name) /
           ((wonDealsOf sampleDeals samplePartner.name).length : ℚ) ∧
       (calculate_performance_metrics sampleDeals sampleLeads (fun _ => 2024) 2024
          samplePartner).last_deal_date = maxClosedDate (wonDealsOf sampleDeals samplePartner.name) ∧
       (calculate_performance_metrics sampleDeals sampleLeads (fun _ => 2024) 2024
          samplePartner).ytd_revenue =
         sumDealValues ((wonDealsOf sampleDeals samplePartner.name).filter
           (fun d => (fun _ => (2024 : Int)) d.closed_date == 2024))))
    ∧ ((calculate_performance_metrics sampleDeals sampleLeads (fun _ => 2024) 2024
          samplePartner).lead_conversion_rate =
        if 0 < totalLeadCount sampleLeads samplePartner.name then
          ((convertedLeadCount sampleLeads samplePartner.name : ℚ) /
            (totalLeadCount sampleLeads samplePartner.name : ℚ)) * 100
        else 0) :=
  c4_metrics_reference sampleDeals sampleLeads (fun _ => 2024) 2024 samplePartner

end PRM
